import Mathlib

/-!
Verification of the DR role-orchestration core in
`ci/jjb/scripts/vco_dr_config.py`.

The Python module drives two orchestrator ("VECO") nodes through a role
state machine (establish / break / revert / promote workflows) and runs an
edge-count health check after a promotion.  The shallow embedding below
translates the decision logic of that module into pure Lean functions:

* remote reads (roles, edge counts, poll results) are passed in explicitly
  as scripted values or lists of per-iteration readings — one list element
  per loop iteration that happens before the wall-clock deadline;
* remote state-changing commands are collected into an explicit trace
  (`VecoCmd`, tagged with the node they are issued on) instead of being
  performed;
* Python float arithmetic (`x / 0.95`, `x / 0.9` on small integer edge
  counts) is modelled as exact rational arithmetic over `ℚ`;
* a Python function that can fall off the end without `return` yields
  `Option Bool` (`none` = Python `None`), and an exception that escapes a
  function is an `Except.error`.
-/

/-- All possible VCO roles (`class VcoRole(Enum)` in the source). -/
inductive VcoRole where
  | ACTIVE
  | STANDALONE
  | STANDBY_CANDIDATE
  | STANDBY
  | UNCONFIGURED
deriving DecidableEq, Repr

/-- The node a remote command is issued on.  The workflows operate on a
primary VECO and an optional secondary VECO. -/
inductive Node where
  | primary
  | secondary
deriving DecidableEq, Repr

/-- State-changing remote calls the module can issue on a node. -/
inductive VecoCmd where
  | setStandby
  | setStandalone
  | promoteToActive
  | configureDr
  | createUser
  | deleteUser
  | createProperty (propName : String)
  | updateProperty (propName : String)
deriving DecidableEq, Repr

/-- Exception kinds raised by the remote-API client
(`VcoRequestError`, `VcoResponseEmpty`, `VcoReplicationError`,
`VcoResponseError`, `VcoNoSuchUser`). -/
inductive VcoErr where
  | requestError
  | responseEmpty
  | replicationError
  | responseError
  | noSuchUser
deriving DecidableEq, Repr

/-- Model of `_configure_role(veco, role)`: decide whether the requested role change
is allowed from the observed current role, and which role-change command is
issued.  `current_role = veco.get_vco_role()`; the returned `Bool` is the
function's return value and the `Option VecoCmd` is the remote command it
issues (if any). -/
def configure_role (current_role role : VcoRole) : Bool × Option VecoCmd :=
  if role = current_role then
    -- "Role already set correctly."
    (true, none)
  else if role = VcoRole.STANDBY ∧
      (current_role = VcoRole.STANDALONE ∨ current_role = VcoRole.UNCONFIGURED) then
    -- veco.set_vco_role_standby()
    (true, some VecoCmd.setStandby)
  else if role = VcoRole.STANDALONE ∧
      (current_role = VcoRole.ACTIVE ∨ current_role = VcoRole.STANDBY ∨
        current_role = VcoRole.UNCONFIGURED) then
    -- veco.set_vco_role_standalone()
    (true, some VecoCmd.setStandalone)
  else
    (false, none)

/-- Model of `_wait_for_role_change(veco, role, ...)`: each list element is one loop
iteration that starts before the deadline; `some r` is a successful role
read yielding `r`, `none` is a read that raised `VcoRequestError`,
`VcoResponseEmpty` or `VcoReplicationError` (swallowed, loop continues).
An empty suffix means the deadline elapsed: the function returns `False`. -/
def wait_for_role_change (role : VcoRole) : List (Option VcoRole) → Bool
  | [] => false
  | read :: rest =>
    match read with
    | some r => if r = role then true else wait_for_role_change role rest
    | none => wait_for_role_change role rest

/-- One `_get_active_edge_count` reading: the tuple
`(num_connected_edges, num_down_edges, num_degraded_edges)`. -/
structure EdgeCount where
  conn : Nat
  down : Nat
  deg : Nat
deriving DecidableEq, Repr

/-- The code after the sampling loop of `_monitor_edge_count`: the final
relaxed check against the last sample held in `conn, deg, down`.
Result: `(return value, whether the degraded/down warning was printed)`.

The source unpacks `pre_count = (connected, down, degraded)` as
`pre_conn, pre_deg, pre_down` and each sample tuple as `conn, deg, down`;
both unpackings swap the down/degraded names in the same way, so the
comparisons below pair the same underlying quantities field by field. -/
def monitorFinal (pre state : EdgeCount) : Bool × Bool :=
  if (state.conn : ℚ) / 0.9 < (pre.conn : ℚ) then
    -- "Connected edges are missing from the promoted VCO"
    (false, false)
  else if (state.down : ℚ) / 0.9 < (pre.down : ℚ) ∨
      (state.deg : ℚ) / 0.9 < (pre.deg : ℚ) then
    -- warning only: "Some previously disconnected or degraded edges are
    -- missing from the promoted VCO." — the function still returns True
    (true, true)
  else
    (true, false)

/-- The sampling loop of `_monitor_edge_count`.  `state` is the running
`conn, deg, down` triple (initially `0, 0, 0`), `fail_count` the strike
counter, and the list holds the `_get_active_edge_count` readings taken in
order, one per iteration that starts before the 300-second deadline; the
empty list is deadline expiry.  As in the source, `conn, deg, down` are
reassigned to the current sample at the top of each iteration, before the
`curr_conn >= conn` comparison. -/
def monitorLoop (pre : EdgeCount) : EdgeCount → Nat → List EdgeCount → Bool × Bool
  | state, _fail_count, [] => monitorFinal pre state
  | _state, fail_count, curr :: rest =>
    -- conn, deg, down = curr_conn, curr_deg, curr_down
    let conn := curr.conn
    if (curr.conn : ℚ) / 0.95 ≥ (pre.conn : ℚ) then
      -- "Edge count within acceptable range, continuing." — break
      monitorFinal pre curr
    else if ¬ (curr.conn ≥ conn) then
      if fail_count + 1 = 3 then
        -- "Connected Edge counts have decreased ... 3 times." — return False
        (false, false)
      else
        monitorLoop pre curr (fail_count + 1) rest
    else
      monitorLoop pre curr fail_count rest

/-- Model of `_monitor_edge_count(pre_count, promoted_vco)`:
`timeout, interval, fail_count = 300, 5, 0` and `conn, deg, down = 0, 0, 0`
before the loop starts. -/
def monitor_edge_count (pre_count : EdgeCount) (samples : List EdgeCount) :
    Bool × Bool :=
  monitorLoop pre_count ⟨0, 0, 0⟩ 0 samples

/-- Scripted observable state of one VECO, as read by the Establish
preparation: its role, its connected-client count, whether the replication
user already exists (`get_user_id` succeeds), and the current values of its
system properties (`none` result of a lookup is `PropertyNotFound`). -/
structure NodeEnv where
  role : VcoRole
  clientCount : Nat
  userExists : Bool
  props : List (String × Int)
deriving DecidableEq, Repr

/-- Association-list lookup for a node's system-property value by name. -/
def propLookup : List (String × Int) → String → Option Int
  | [], _ => none
  | (k, v) :: rest, key => if k = key then some v else propLookup rest key

/-- Model of `primary_veco_properties`: the DR-tuning properties upserted on the
primary, as `(name, value)` pairs. -/
def primary_veco_properties : List (String × Int) :=
  [("vco.disasterRecovery.standbyRestartStateSecs", 300),
   ("vco.disasterRecovery.transientErrorToleranceSecs", 900),
   ("vco.disasterRecovery.allowedStandbySecsBehindActive", 300)]

/-- Model of `secondary_veco_properties = []`. -/
def secondary_veco_properties : List (String × Int) := []

/-- Model of `_create_db_replication_user(veco, user, password)`: create the user,
or delete then recreate it when it already exists. -/
def create_db_replication_user (n : Node) (userExists : Bool) :
    List (Node × VecoCmd) :=
  if userExists then
    -- "Recreating replication user"
    [(n, VecoCmd.deleteUser), (n, VecoCmd.createUser)]
  else
    -- "Creating replication user"
    [(n, VecoCmd.createUser)]

/-- Model of `_update_or_create_properties(veco, properties)`: for each property,
update it when it exists and its value changed (`has_any_changes`), create
it when `PropertyNotFound`. -/
def update_or_create_properties (n : Node) (props current : List (String × Int)) :
    List (Node × VecoCmd) :=
  match props with
  | [] => []
  | (propName, value) :: rest =>
    (match propLookup current propName with
     | some v =>
       if v ≠ value then [(n, VecoCmd.updateProperty propName)] else []
     | none => [(n, VecoCmd.createProperty propName)]) ++
      update_or_create_properties n rest current

/-- Render the optional role-change command of `configure_role` as trace
entries for node `n`. -/
def roleCmdTrace (n : Node) : Option VecoCmd → List (Node × VecoCmd)
  | none => []
  | some c => [(n, c)]

/-- Model of `configure_vecos_and_assign_standby(veco, secondary_veco, ...)`:
prepare two VCOs for replication.  Returns the function's boolean result
and the trace of state-changing remote calls it issues. -/
def configure_vecos_and_assign_standby (primary secondary : NodeEnv)
    (force : Bool) : Bool × List (Node × VecoCmd) :=
  let secondary_role := secondary.role
  if secondary_role = VcoRole.UNCONFIGURED ∨
      secondary_role = VcoRole.STANDALONE then
    let acts :=
      create_db_replication_user Node.primary primary.userExists ++
      create_db_replication_user Node.secondary secondary.userExists ++
      update_or_create_properties Node.primary primary_veco_properties
        primary.props ++
      update_or_create_properties Node.secondary secondary_veco_properties
        secondary.props
    if force ∨ secondary.clientCount = 0 then
      let c := configure_role secondary_role VcoRole.STANDBY
      -- returns True when _configure_role succeeded, otherwise prints
      -- "Failed to configure ... to STANDBY" and returns False
      (c.fst, acts ++ roleCmdTrace Node.secondary c.snd)
    else
      -- "Secondary VECO has clients: ..."
      (false, acts)
  else if secondary_role = VcoRole.STANDBY then
    (true, [])
  else
    -- "Secondary VECO is not in STANDBY or UNCONFIGURED state"
    (false, [])

/-- Scripted observations for one node during `break_veco`: the role read
by `_configure_role` and the role-read sequence of the subsequent
`_wait_for_role_change` poll. -/
structure BreakNodeEnv where
  role : VcoRole
  waitReads : List (Option VcoRole)
deriving DecidableEq, Repr

/-- The inner `break_(veco)` of `break_veco`: the entry it writes into
`results` for its node, if any.  The dict entry is written only when
`_configure_role(veco, STANDALONE)` returns True; a denied request writes
nothing. -/
def break_entry (env : BreakNodeEnv) : Option Bool :=
  if (configure_role env.role VcoRole.STANDALONE).fst then
    some (wait_for_role_change VcoRole.STANDALONE env.waitReads)
  else
    none

/-- Model of `break_veco(primary_veco, secondary_veco, ...)`: returns
`all(results.values())` together with the `results` map, which starts as
`{primary_veco.name: False}` and is updated by `break_` per node. -/
def break_veco (p : BreakNodeEnv) (s : Option BreakNodeEnv) :
    Bool × List (Node × Bool) :=
  let primaryEntry :=
    match break_entry p with
    | some b => b
    | none => false
  let results :=
    (Node.primary, primaryEntry) ::
      (match s with
       | none => []
       | some se =>
         match break_entry se with
         | some b => [(Node.secondary, b)]
         | none => [])
  (results.all fun kv => kv.2, results)

/-- Scripted observations for one `revert_veco` call: the role read inside
the `try` block (`none` = `VcoRequestError` raised) and the role-read
sequence of the `_wait_for_role_change` poll. -/
structure RevertEnv where
  roleRead : Option VcoRole
  waitReads : List (Option VcoRole)
deriving DecidableEq, Repr

/-- Model of `revert_veco(veco, args)`: revert one VCO to standalone.  Returns the
Python return value (`none` models Python `None`, reached when the role is
outside the allowed set and no `return` executes) and the trace of role
commands issued. -/
def revert_veco (n : Node) (env : RevertEnv) : Option Bool × List (Node × VecoCmd) :=
  match env.roleRead with
  | none =>
    -- except VcoRequestError: return False
    (some false, [])
  | some current =>
    if current = VcoRole.ACTIVE ∨ current = VcoRole.STANDBY ∨
        current = VcoRole.UNCONFIGURED then
      let c := configure_role current VcoRole.STANDALONE
      -- `_configure_role(...) and _wait_for_role_change(...)` short-circuits
      if c.fst then
        (some (wait_for_role_change VcoRole.STANDALONE env.waitReads),
          roleCmdTrace n c.snd)
      else
        (some false, roleCmdTrace n c.snd)
    else
      (none, [])

/-- Model of `configure_dr(veco, secondary_veco, ...)`: reads the secondary's
replication status (address / replication address / UUID) and calls
`configure_veco_for_dr` on the primary; `VcoResponseError` from that call
is caught and yields False.  When the primary is already ACTIVE the call is
skipped and the function returns False. -/
def configure_dr (primaryRole : VcoRole) (drCallOk : Bool) :
    Bool × List (Node × VecoCmd) :=
  if primaryRole ≠ VcoRole.ACTIVE then
    if drCallOk then
      (true, [(Node.primary, VecoCmd.configureDr)])
    else
      -- "Configure DR call failed on ..."
      (false, [(Node.primary, VecoCmd.configureDr)])
  else
    (false, [])

/-- The inline standby-convergence poll of `establish_handler`: up to 300
seconds, each iteration re-authenticates and reads the secondary's role;
`some r` is a successful read, `none` a swallowed `JSONDecodeError` /
`VcoResponseEmpty` / `VcoReplicationError` / `VcoRequestError`.  The loop
breaks on STANDBY; the empty suffix is the while-else (deadline) path. -/
def establish_standby_wait : List (Option VcoRole) → Bool
  | [] => false
  | read :: rest =>
    match read with
    | some r =>
      if r = VcoRole.STANDBY then true else establish_standby_wait rest
    | none => establish_standby_wait rest

/-- Scripted inputs and observations for one `establish_handler` run. -/
structure EstablishEnv where
  secondaryProvided : Bool
  fqdnFlag : Bool
  ipsValid : Bool
  secondaryAuthRaises : Bool
  secondaryAuthed : Bool
  primary : NodeEnv
  secondary : NodeEnv
  force : Bool
  standbyReads : List (Option VcoRole)
  primaryRoleAtDr : VcoRole
  drCallOk : Bool
  primaryRevert : RevertEnv
  secondaryRevert : RevertEnv
deriving DecidableEq, Repr

/-- Model of `establish_handler(veco, args)`: returns the process exit code and the
trace of state-changing remote calls issued (directly or via the helpers it
invokes). -/
def establish_handler (env : EstablishEnv) : Nat × List (Node × VecoCmd) :=
  if !env.secondaryProvided then
    -- "Establish option selected, but no Secondary VECO name provided."
    (2, [])
  else if !env.fqdnFlag && !env.ipsValid then
    -- "Provided IP is invalid"
    (6, [])
  else if env.secondaryAuthRaises then
    -- "Unable to login to ..."
    (1, [])
  else if !env.secondaryAuthed then
    -- "... failed to Authenticate on ..."
    (1, [])
  else
    let prep :=
      configure_vecos_and_assign_standby env.primary env.secondary env.force
    if !prep.fst then
      -- "DR Preparation failed, exiting"
      (1, prep.snd)
    else if !establish_standby_wait env.standbyReads then
      -- "Configuration of ... failed"
      (3, prep.snd)
    else
      let dr := configure_dr env.primaryRoleAtDr env.drCallOk
      if dr.fst then
        (0, prep.snd ++ dr.snd)
      else
        -- "Replication Setup failed. Reverting VECOs"
        (3, prep.snd ++ dr.snd ++
          (revert_veco Node.primary env.primaryRevert).snd ++
          (revert_veco Node.secondary env.secondaryRevert).snd)

/-- Scripted observations for one `promote_veco` call: the role read at
entry, the outcome of `promote_vco_to_active(True)` (`none` = returned
normally, `some e` = raised `e`), and the role-read sequence of the final
authoritative `_wait_for_role_change(veco, "STANDALONE", ...)`.  The five
intermediate `_wait_for_role_change` calls in the `for _ in range(5)` loop
discard their results and issue no state-changing calls, so they carry no
observable data. -/
structure PromoteEnv where
  role : VcoRole
  promoteResult : Option VcoErr
  finalReads : List (Option VcoRole)
deriving DecidableEq, Repr

/-- Model of `promote_veco(veco, username, password)`: result is `Except.error e`
when an exception other than the caught `VcoRequestError` escapes, else
`Except.ok` of the Python return value; paired with the trace of
state-changing remote calls. -/
def promote_veco (env : PromoteEnv) : Except VcoErr Bool × List VecoCmd :=
  if env.role = VcoRole.STANDBY ∨ env.role = VcoRole.STANDBY_CANDIDATE then
    match env.promoteResult with
    | some VcoErr.requestError =>
      -- except VcoRequestError: "Error connecting to API on ...",
      -- "Continuing." — the workflow proceeds to confirmation
      (Except.ok (wait_for_role_change VcoRole.STANDALONE env.finalReads),
        [VecoCmd.promoteToActive])
    | some e =>
      -- any other exception kind is not caught here
      (Except.error e, [VecoCmd.promoteToActive])
    | none =>
      (Except.ok (wait_for_role_change VcoRole.STANDALONE env.finalReads),
        [VecoCmd.promoteToActive])
  else if env.role = VcoRole.STANDALONE then
    -- "VCO is already in standalone"
    (Except.ok true, [])
  else
    -- "Will not promote a VCO with role ..."
    (Except.ok false, [])

/-- The transition predicate asserted by the specification claim about the
role state machine — written from the spec's words, for comparison with
`configure_role`: allowed iff target = Standby with current in
{Standalone, Unconfigured}, or target = Standalone with current in
{Active, Standby, Unconfigured, StandbyCandidate}. -/
def spec_claim_allowed (current target : VcoRole) : Prop :=
  (target = VcoRole.STANDBY ∧
    (current = VcoRole.STANDALONE ∨ current = VcoRole.UNCONFIGURED)) ∨
  (target = VcoRole.STANDALONE ∧
    (current = VcoRole.ACTIVE ∨ current = VcoRole.STANDBY ∨
      current = VcoRole.UNCONFIGURED ∨ current = VcoRole.STANDBY_CANDIDATE))

/-- A concrete Establish run that reaches the DR-configuration step and
fails there: primary still Standalone, secondary assigned and confirmed
Standby, DR-link call raises `VcoResponseError`. -/
def c3Env : EstablishEnv :=
  ⟨true, true, true, false, true,
    ⟨VcoRole.STANDALONE, 0, false, []⟩,
    ⟨VcoRole.STANDALONE, 0, false, []⟩,
    false,
    [some VcoRole.STANDBY],
    VcoRole.STANDALONE, false,
    ⟨some VcoRole.STANDALONE, []⟩,
    ⟨some VcoRole.STANDBY, [some VcoRole.STANDALONE]⟩⟩

-- ===== helper lemmas =====

/-- Helper: exact-rational monotonicity used by the health check: dividing a
non-negative count by 0.95 gives at most the same count divided by 0.9. -/
theorem div95_le_div9 (c : Nat) : ((c : ℚ)) / 0.95 ≤ ((c : ℚ)) / 0.9 := by
  rw [div_le_div_iff₀ (by norm_num) (by norm_num)]
  have h0 : (0 : ℚ) ≤ (c : ℚ) := Nat.cast_nonneg c
  nlinarith

/-- Helper: a sample meeting the 95% threshold breaks the sampling loop and
goes straight to the final check. -/
theorem monitorLoop_pass (pre state : EdgeCount) (fc : Nat) (curr : EdgeCount)
    (rest : List EdgeCount) (h : (curr.conn : ℚ) / 0.95 ≥ (pre.conn : ℚ)) :
    monitorLoop pre state fc (curr :: rest) = monitorFinal pre curr := by
  simp [monitorLoop, h]

/-- Helper: a sample below the 95% threshold advances the loop with the
strike counter unchanged, because the running triple is reassigned to the
current sample before the `curr_conn >= conn` comparison. -/
theorem monitorLoop_step (pre state : EdgeCount) (fc : Nat) (curr : EdgeCount)
    (rest : List EdgeCount) (h : ¬ ((curr.conn : ℚ) / 0.95 ≥ (pre.conn : ℚ))) :
    monitorLoop pre state fc (curr :: rest) = monitorLoop pre curr fc rest := by
  simp [monitorLoop, h]

/-- Helper: the final relaxed check passes exactly when the connected count
is at least 90% of baseline; degraded/down counts do not influence it. -/
theorem monitorFinal_fst (pre state : EdgeCount) :
    (monitorFinal pre state).fst =
      decide ((pre.conn : ℚ) ≤ (state.conn : ℚ) / 0.9) := by
  unfold monitorFinal
  rcases lt_or_ge ((state.conn : ℚ) / 0.9) ((pre.conn : ℚ)) with h | h
  · rw [if_pos h]
    simp [not_le.mpr h]
  · rw [if_neg (not_lt.mpr h)]
    split <;> simp [h]

/-- Helper: when every sample is below the 95% threshold, the loop consumes
all of them and ends in the final relaxed check on the last sample. -/
theorem monitorLoop_timeout (pre : EdgeCount) :
    ∀ (init : List EdgeCount) (last state : EdgeCount) (fc : Nat),
      (∀ s ∈ init ++ [last], ¬ ((s.conn : ℚ) / 0.95 ≥ (pre.conn : ℚ))) →
      monitorLoop pre state fc (init ++ [last]) = monitorFinal pre last := by
  intro init
  induction init with
  | nil =>
    intro last state fc h
    rw [List.nil_append,
      monitorLoop_step pre state fc last [] (h last (by simp))]
    simp [monitorLoop]
  | cons a tl ih =>
    intro last state fc h
    rw [List.cons_append,
      monitorLoop_step pre state fc a _ (h a (by simp))]
    exact ih last a fc (fun s hs => h s (by simp at hs ⊢; tauto))

-- ===== C5 =====

/-- C5: `_wait_for_role_change` returns success iff some in-deadline role
read equals the target role; reads that raise the swallowed exception kinds
(`none` entries) just continue the loop, and a sequence that never yields
the target terminates with failure when the deadline empties the list. -/
theorem c5_wait_for_role_change_iff (role : VcoRole)
    (reads : List (Option VcoRole)) :
    wait_for_role_change role reads = true ↔ some role ∈ reads := by
  induction reads with
  | nil => simp [wait_for_role_change]
  | cons head tail ih =>
    cases head with
    | none => simp [wait_for_role_change, ih]
    | some r =>
      by_cases h : r = role
      · simp [wait_for_role_change, h]
      · simp [wait_for_role_change, h, ih, Ne.symm h]

-- ===== C2 =====

/-- C2 counterexample: the claim's transition table allows
StandbyCandidate → Standalone, but `_configure_role` denies that pair and
issues no command. -/
theorem c2_counterexample :
    (configure_role VcoRole.STANDBY_CANDIDATE VcoRole.STANDALONE).fst = false ∧
    spec_claim_allowed VcoRole.STANDBY_CANDIDATE VcoRole.STANDALONE := by
  exact ⟨by decide, Or.inr ⟨rfl, Or.inr (Or.inr (Or.inr rfl))⟩⟩

/-- C2 (amended): `_configure_role` reports success with no command on
`current = target`; grants exactly the edges Standalone|Unconfigured →
Standby and Active|Standby|Unconfigured → Standalone (StandbyCandidate →
Standalone is denied); and issues a role-change command exactly on granted
non-trivial transitions. -/
theorem c2_role_state_machine (current target : VcoRole) :
    (current = target → configure_role current target = (true, none)) ∧
    ((configure_role current target).fst = true ↔
      (current = target ∨
        (target = VcoRole.STANDBY ∧
          (current = VcoRole.STANDALONE ∨ current = VcoRole.UNCONFIGURED)) ∨
        (target = VcoRole.STANDALONE ∧
          (current = VcoRole.ACTIVE ∨ current = VcoRole.STANDBY ∨
            current = VcoRole.UNCONFIGURED)))) ∧
    ((configure_role current target).snd = none ↔
      ((configure_role current target).fst = false ∨ current = target)) := by
  cases current <;> cases target <;> decide

/-- C2 witness: a self-transition is reported as success with no command. -/
theorem c2_witness :
    configure_role VcoRole.ACTIVE VcoRole.ACTIVE = (true, none) :=
  (c2_role_state_machine VcoRole.ACTIVE VcoRole.ACTIVE).1 rfl

-- ===== C4 =====

/-- C4 counterexample: with the primary granted and confirmed but the
secondary's role-change request denied (role StandbyCandidate),
`break_veco` returns overall success and its result map has no entry for
the secondary — contradicting both conjuncts of the claim. -/
theorem c4_counterexample :
    break_veco ⟨VcoRole.ACTIVE, [some VcoRole.STANDALONE]⟩
        (some ⟨VcoRole.STANDBY_CANDIDATE, [some VcoRole.STANDALONE]⟩) =
      (true, [(Node.primary, true)]) ∧
    ¬ ∃ b, (Node.secondary, b) ∈
      (break_veco ⟨VcoRole.ACTIVE, [some VcoRole.STANDALONE]⟩
        (some ⟨VcoRole.STANDBY_CANDIDATE, [some VcoRole.STANDALONE]⟩)).snd := by
  decide

/-- C4 (amended): the result map of `break_veco` always has a primary entry
(defaulting to False when the primary's request is denied), has a secondary
entry only when the secondary's role-change request is granted, and overall
success is the conjunction of the recorded entries — so a denied secondary
is omitted and cannot prevent overall success. -/
theorem c4_break_results (p s : BreakNodeEnv) :
    (break_veco p (some s)).snd =
      (Node.primary, (break_entry p).getD false) ::
        (break_entry s).elim [] (fun b => [(Node.secondary, b)]) ∧
    (break_veco p (some s)).fst =
      ((break_entry p).getD false && (break_entry s).getD true) := by
  cases hp : break_entry p <;> cases hs : break_entry s <;>
    simp [break_veco, hp, hs]

-- ===== C7 / C9 =====

/-- C7: `promote_veco` issues the promote-to-active command exactly when
the observed role is Standby or StandbyCandidate; an already-Standalone
node yields success with no state-changing call (idempotent), and any other
role (Active, Unconfigured) yields False with no state-changing call. -/
theorem c7_promote_role_gate (env : PromoteEnv) :
    ((VecoCmd.promoteToActive ∈ (promote_veco env).snd) ↔
      (env.role = VcoRole.STANDBY ∨ env.role = VcoRole.STANDBY_CANDIDATE)) ∧
    (env.role = VcoRole.STANDALONE →
      promote_veco env = (Except.ok true, [])) ∧
    ((env.role = VcoRole.ACTIVE ∨ env.role = VcoRole.UNCONFIGURED) →
      promote_veco env = (Except.ok false, [])) := by
  obtain ⟨role, pr, fr⟩ := env
  cases role <;> rcases pr with _ | e <;> (try cases e) <;>
    simp [promote_veco]

/-- C7 witness: concrete runs for the Standalone and Active gates. -/
theorem c7_witness :
    promote_veco ⟨VcoRole.STANDALONE, none, []⟩ = (Except.ok true, []) ∧
    promote_veco ⟨VcoRole.ACTIVE, none, []⟩ = (Except.ok false, []) :=
  ⟨(c7_promote_role_gate ⟨VcoRole.STANDALONE, none, []⟩).2.1 rfl,
   (c7_promote_role_gate ⟨VcoRole.ACTIVE, none, []⟩).2.2 (Or.inl rfl)⟩

/-- C9: on a promotable node, a `VcoRequestError` raised by the
promote-to-active command is caught and non-fatal — the function still
returns normally and its result is exactly the final Standalone
role-confirmation poll's result. -/
theorem c9_request_error_nonfatal (env : PromoteEnv)
    (h1 : env.role = VcoRole.STANDBY ∨ env.role = VcoRole.STANDBY_CANDIDATE)
    (h2 : env.promoteResult = some VcoErr.requestError) :
    promote_veco env =
      (Except.ok (wait_for_role_change VcoRole.STANDALONE env.finalReads),
        [VecoCmd.promoteToActive]) := by
  rcases h1 with h | h <;> simp [promote_veco, h, h2]

/-- C9 witness: a Standby node whose promote command raises
`VcoRequestError` still succeeds via the final confirmation poll. -/
theorem c9_witness :
    promote_veco ⟨VcoRole.STANDBY, some VcoErr.requestError,
        [some VcoRole.STANDALONE]⟩ =
      (Except.ok true, [VecoCmd.promoteToActive]) := by
  rw [c9_request_error_nonfatal _ (Or.inl rfl) rfl]
  simp [wait_for_role_change]

-- ===== C8 =====

/-- C8: the Establish preparation returns success with no state-changing
calls when the secondary is already Standby, and fails fast with no
state-changing calls when the secondary's role is neither Unconfigured,
Standalone nor Standby. -/
theorem c8_prepare_idempotent (p s : NodeEnv) (force : Bool) :
    (s.role = VcoRole.STANDBY →
      configure_vecos_and_assign_standby p s force = (true, [])) ∧
    ((s.role = VcoRole.ACTIVE ∨ s.role = VcoRole.STANDBY_CANDIDATE) →
      configure_vecos_and_assign_standby p s force = (false, [])) := by
  constructor
  · intro h
    simp [configure_vecos_and_assign_standby, h]
  · rintro (h | h) <;> simp [configure_vecos_and_assign_standby, h]

/-- C8 witness: concrete already-Standby and Active secondaries. -/
theorem c8_witness :
    configure_vecos_and_assign_standby ⟨VcoRole.STANDALONE, 0, false, []⟩
        ⟨VcoRole.STANDBY, 0, false, []⟩ false = (true, []) ∧
    configure_vecos_and_assign_standby ⟨VcoRole.STANDALONE, 0, false, []⟩
        ⟨VcoRole.ACTIVE, 3, true, []⟩ false = (false, []) :=
  ⟨(c8_prepare_idempotent ⟨VcoRole.STANDALONE, 0, false, []⟩
      ⟨VcoRole.STANDBY, 0, false, []⟩ false).1 rfl,
   (c8_prepare_idempotent ⟨VcoRole.STANDALONE, 0, false, []⟩
      ⟨VcoRole.ACTIVE, 3, true, []⟩ false).2 (Or.inl rfl)⟩

-- ===== C6 =====

/-- C6: at any sample meeting `curr/0.95 >= baseline` the health check
passes immediately; when every sample in the window is below that
threshold, the deadline path's result is exactly the relaxed
`last.conn/0.9 >= baseline` test on the last sample — the degraded/down
comparisons influence only the warning flag, never the result. -/
theorem c6_monitor_thresholds (pre state curr last : EdgeCount) (fc : Nat)
    (rest init : List EdgeCount) :
    ((curr.conn : ℚ) / 0.95 ≥ (pre.conn : ℚ) →
      (monitorLoop pre state fc (curr :: rest)).fst = true) ∧
    ((∀ s ∈ init ++ [last], ¬ ((s.conn : ℚ) / 0.95 ≥ (pre.conn : ℚ))) →
      (monitorLoop pre state fc (init ++ [last])).fst =
        decide ((pre.conn : ℚ) ≤ (last.conn : ℚ) / 0.9)) := by
  constructor
  · intro h
    rw [monitorLoop_pass pre state fc curr rest h, monitorFinal_fst]
    have h2 := div95_le_div9 curr.conn
    simp [le_trans h h2]
  · intro hall
    rw [monitorLoop_timeout pre init last state fc hall, monitorFinal_fst]

/-- C6 witness: with baseline 100, the sample 96 passes immediately
(96/0.95 ≥ 100), and the all-below-threshold run [80, 85] ends with the
relaxed check failing (85/0.9 < 100). -/
theorem c6_witness :
    (monitorLoop ⟨100, 0, 0⟩ ⟨0, 0, 0⟩ 0 [⟨96, 0, 0⟩]).fst = true ∧
    (monitorLoop ⟨100, 0, 0⟩ ⟨0, 0, 0⟩ 0 ([⟨80, 0, 0⟩] ++ [⟨85, 0, 0⟩])).fst =
      false := by
  constructor
  · exact (c6_monitor_thresholds ⟨100, 0, 0⟩ ⟨0, 0, 0⟩ ⟨96, 0, 0⟩ ⟨85, 0, 0⟩ 0
      [] []).1 (by norm_num)
  · have h := (c6_monitor_thresholds ⟨100, 0, 0⟩ ⟨0, 0, 0⟩ ⟨96, 0, 0⟩
      ⟨85, 0, 0⟩ 0 [] [⟨80, 0, 0⟩]).2 (by
        intro s hs
        simp at hs
        rcases hs with h | h <;> subst h <;> norm_num)
    rw [h]
    norm_num

-- ===== C10 =====

/-- C10: with a zero baseline connected count, the monitor exits its
sampling loop at the first sample and returns True, whatever the sample's
connected, down and degraded counts and whatever later samples would have
shown. -/
theorem c10_zero_baseline (pd pg : Nat) (s : EdgeCount)
    (rest : List EdgeCount) :
    (monitor_edge_count ⟨0, pd, pg⟩ (s :: rest)).fst = true ∧
    monitor_edge_count ⟨0, pd, pg⟩ (s :: rest) =
      monitor_edge_count ⟨0, pd, pg⟩ [s] := by
  have h : ((s.conn : ℚ)) / 0.95 ≥ (((⟨0, pd, pg⟩ : EdgeCount).conn : ℚ)) := by
    show ((0 : Nat) : ℚ) ≤ _
    push_cast
    positivity
  refine ⟨?_, ?_⟩
  · rw [monitor_edge_count, monitorLoop_pass _ _ _ _ _ h, monitorFinal_fst]
    simp only [decide_eq_true_eq]
    push_cast
    positivity
  · rw [monitor_edge_count, monitor_edge_count, monitorLoop_pass _ _ _ _ _ h,
      monitorLoop_pass _ _ _ _ _ h]

-- ===== C1 =====

/-- C1: the strike counter of `_monitor_edge_count` is dead code — the
running `conn` is reassigned to the current sample before the
`curr_conn >= conn` comparison, so the comparison always holds and
`fail_count` never increments.  With baseline 100 and the three
consecutive non-improving below-threshold samples 80, 79, 79 the monitor
does not return False; it keeps sampling and here passes once a fourth
sample recovers to 96 — the claimed third-strike immediate failure never
happens. -/
theorem c1_strike_counter_dead :
    monitor_edge_count ⟨100, 0, 0⟩
      [⟨80, 0, 0⟩, ⟨79, 0, 0⟩, ⟨79, 0, 0⟩, ⟨96, 0, 0⟩] = (true, false) := by
  norm_num [monitor_edge_count, monitorLoop, monitorFinal]

-- ===== C3 =====

/-- C3 (amended): when the run reaches the DR-link configuration step and
that step fails, `establish_handler` exits with code 3 and itself performs
the rollback: it appends the traces of `revert_veco` on the primary and on
the secondary — issuing Standalone role-change requests on the nodes whose
observed roles permit — rather than leaving rollback to the caller. -/
theorem c3_dr_failure_autorevert (env : EstablishEnv)
    (h1 : env.secondaryProvided = true) (h2 : env.fqdnFlag = true)
    (h3 : env.secondaryAuthRaises = false) (h4 : env.secondaryAuthed = true)
    (h5 : (configure_vecos_and_assign_standby env.primary env.secondary
      env.force).fst = true)
    (h6 : establish_standby_wait env.standbyReads = true)
    (h7 : (configure_dr env.primaryRoleAtDr env.drCallOk).fst = false) :
    establish_handler env =
      (3, (configure_vecos_and_assign_standby env.primary env.secondary
            env.force).snd ++
        (configure_dr env.primaryRoleAtDr env.drCallOk).snd ++
        (revert_veco Node.primary env.primaryRevert).snd ++
        (revert_veco Node.secondary env.secondaryRevert).snd) := by
  simp [establish_handler, h1, h2, h3, h4, h5, h6, h7]

/-- C3 counterexample: in the failed-DR-configuration run `c3Env`,
`establish_handler` exits 3 but its trace does contain a Standalone
role-change request after the DR call (on the Standby secondary, issued by
the automatic `revert_veco` invocation) — the workflow does not leave the
rollback to the caller.  The preparation phase itself never issues
`setStandalone`, so this request can only come after the failure. -/
theorem c3_counterexample :
    (establish_handler c3Env).fst = 3 ∧
    (Node.secondary, VecoCmd.setStandalone) ∈ (establish_handler c3Env).snd := by
  decide

/-- C3 witness: the amended statement evaluated on `c3Env`, exhibiting the
full trace: after the failed `configureDr` call the handler issues the
rollback `setStandalone` on the secondary (the Standalone primary needs
none). -/
theorem c3_autorevert_witness :
    establish_handler c3Env =
      (3, [(Node.primary, VecoCmd.createUser),
        (Node.secondary, VecoCmd.createUser),
        (Node.primary,
          VecoCmd.createProperty "vco.disasterRecovery.standbyRestartStateSecs"),
        (Node.primary,
          VecoCmd.createProperty "vco.disasterRecovery.transientErrorToleranceSecs"),
        (Node.primary,
          VecoCmd.createProperty "vco.disasterRecovery.allowedStandbySecsBehindActive"),
        (Node.secondary, VecoCmd.setStandby),
        (Node.primary, VecoCmd.configureDr),
        (Node.secondary, VecoCmd.setStandalone)]) := by
  rw [c3_dr_failure_autorevert c3Env rfl rfl rfl rfl (by decide) (by decide)
    (by decide)]
  decide
